import Mathlib

/-!
Verification of the native-flash-loan-program repository (an AMM with a
flash-loan facility, written against the pinocchio Solana framework).

The development shallowly embeds the instruction decoders and processors of
`src/instructions/*.rs` and the pool state of `src/state.rs`:

* byte buffers are `List Nat` (each entry one byte),
* pubkeys are `Nat`,
* machine integers are `Nat` with explicit `% 2 ^ 64` (resp. `2 ^ 128`)
  wherever the source wraps, and `Option`/`Except` results wherever the
  source uses `checked_*` arithmetic or fallible decoding,
* Rust panics (out-of-range slice indexing, unchecked reads past a buffer)
  are a distinguished `sliceOutOfRange` outcome,
* the instructions sysvar is a list of introspected instructions.

The crate root (lib.rs) is not part of the sources; the constants it
provides (`MAX_LOAN_PAIRS`, the program-wide `FEE`) are modelled from the
specification or kept as explicit parameters, as noted on each definition.
-/

namespace NativeFlashLoan

/-- Program errors surfaced by the embedded instructions.  `sliceOutOfRange`
stands for a Rust panic caused by out-of-range indexing (which aborts the
instruction), the other constructors mirror `pinocchio::ProgramError`. -/
inductive ProgErr where
  | notEnoughAccountKeys
  | invalidAccountData
  | invalidInstructionData
  | invalidArgument
  | uninitializedAccount
  | invalidAccountOwner
  | custom (code : Nat)
  | sliceOutOfRange
  deriving DecidableEq, Repr

/-- Little-endian value of a byte list (`u64::from_le_bytes` and friends). -/
def leBytes (bs : List Nat) : Nat :=
  bs.foldr (fun b acc => b + 256 * acc) 0

/-- `data[lo..hi]` of a Rust slice: `none` models the panic raised when the
range is out of bounds. -/
def sliceBytes (data : List Nat) (lo hi : Nat) : Option (List Nat) :=
  if lo ≤ hi ∧ hi ≤ data.length then some ((data.drop lo).take (hi - lo)) else none

/-- Signed value of a little-endian `u64` image, as in `i64::from_le_bytes`. -/
def i64ofNat (n : Nat) : Int :=
  if n < 2 ^ 63 then (n : Int) else (n : Int) - 2 ^ 64

/-- `DepositInstructionData` (deposit.rs). -/
structure DepositInstructionData where
  amount : Nat
  maxX : Nat
  maxY : Nat
  expiration : Int
  deriving DecidableEq, Repr

/-- `DepositInstructionData::try_from` (deposit.rs lines 98-125): fixed
32-byte layout, each of the three `u64` fields rejected when zero, and the
`i64` expiration compared against the clock (`now`).  After the length
check every `data[a..b]` read is in range, so the reads are total. -/
def depositInstructionDataTryFrom (data : List Nat) (now : Int) :
    Except ProgErr DepositInstructionData :=
  if data.length ≠ 32 then .error .invalidInstructionData else
  if leBytes ((data.drop 0).take 8) = 0 then .error .invalidInstructionData else
  if leBytes ((data.drop 8).take 8) = 0 then .error .invalidInstructionData else
  if leBytes ((data.drop 16).take 8) = 0 then .error .invalidInstructionData else
  if i64ofNat (leBytes ((data.drop 24).take 8)) < now then
    .error .invalidInstructionData
  else
    .ok ⟨leBytes ((data.drop 0).take 8), leBytes ((data.drop 8).take 8),
      leBytes ((data.drop 16).take 8), i64ofNat (leBytes ((data.drop 24).take 8))⟩

/-- `WithdrawInstructionData` (withdraw.rs). -/
structure WithdrawInstructionData where
  amount : Nat
  minX : Nat
  minY : Nat
  expiration : Int
  deriving DecidableEq, Repr

/-- `WithdrawInstructionData::try_from` (withdraw.rs lines 97-124): same
32-byte layout as Deposit with `min_x`/`min_y` in place of the maxima. -/
def withdrawInstructionDataTryFrom (data : List Nat) (now : Int) :
    Except ProgErr WithdrawInstructionData :=
  if data.length ≠ 32 then .error .invalidInstructionData else
  if leBytes ((data.drop 0).take 8) = 0 then .error .invalidInstructionData else
  if leBytes ((data.drop 8).take 8) = 0 then .error .invalidInstructionData else
  if leBytes ((data.drop 16).take 8) = 0 then .error .invalidInstructionData else
  if i64ofNat (leBytes ((data.drop 24).take 8)) < now then
    .error .invalidInstructionData
  else
    .ok ⟨leBytes ((data.drop 0).take 8), leBytes ((data.drop 8).take 8),
      leBytes ((data.drop 16).take 8), i64ofNat (leBytes ((data.drop 24).take 8))⟩

/-- `SwapInstructionData` (swap.rs). -/
structure SwapInstructionData where
  isX : Bool
  amount : Nat
  min : Nat
  expiration : Int
  deriving DecidableEq, Repr

/-- `SwapInstructionData::try_from` (swap.rs lines 92-119).  The source
checks `data.len() != size_of::<u16>()`, i.e. the length must be exactly 2,
and then reads `data[1..9]`, `data[9..17]`, `data[17..25]` and `data[0]`,
so every read past the length check indexes out of range. -/
def swapInstructionDataTryFrom (data : List Nat) (now : Int) :
    Except ProgErr SwapInstructionData :=
  if data.length ≠ 2 then .error .invalidInstructionData else
  match sliceBytes data 1 9 with
  | none => .error .sliceOutOfRange
  | some amountBytes =>
    if leBytes amountBytes = 0 then .error .invalidInstructionData else
    match sliceBytes data 9 17 with
    | none => .error .sliceOutOfRange
    | some minBytes =>
      if leBytes minBytes = 0 then .error .invalidInstructionData else
      match sliceBytes data 17 25 with
      | none => .error .sliceOutOfRange
      | some expirationBytes =>
        if i64ofNat (leBytes expirationBytes) < now then
          .error .invalidInstructionData
        else
          match data.getD 0 0 with
          | 0 => .ok ⟨false, leBytes amountBytes, leBytes minBytes,
              i64ofNat (leBytes expirationBytes)⟩
          | 1 => .ok ⟨true, leBytes amountBytes, leBytes minBytes,
              i64ofNat (leBytes expirationBytes)⟩
          | _ => .error .invalidInstructionData

/-- `InitializeInstructionData` (initialize.rs); the optional 32-byte
authority is kept as its little-endian value. -/
structure InitializeInstructionData where
  seed : Nat
  fee : Nat
  authority : Option Nat
  deriving DecidableEq, Repr

/-- `InitializeInstructionData::try_from` (initialize.rs lines 82-103):
either 10 bytes (`seed:u64, fee:u16`) or 42 bytes (plus a 32-byte
authority); the fee is rejected when `fee >= 10000`. -/
def initializeInstructionDataTryFrom (data : List Nat) :
    Except ProgErr InitializeInstructionData :=
  if data.length = 10 then
    let seed := leBytes ((data.drop 0).take 8)
    let fee := leBytes ((data.drop 8).take 2)
    if 10000 ≤ fee then .error .invalidInstructionData
    else .ok ⟨seed, fee, none⟩
  else if data.length = 42 then
    let seed := leBytes ((data.drop 0).take 8)
    let fee := leBytes ((data.drop 8).take 2)
    if 10000 ≤ fee then .error .invalidInstructionData
    else .ok ⟨seed, fee, some (leBytes ((data.drop 10).take 32))⟩
  else .error .invalidInstructionData

/-- `Config` (state.rs), the durable pool state; pubkeys as `Nat`. -/
structure Config where
  seed : Nat
  authority : Nat
  mintX : Nat
  mintY : Nat
  fee : Nat
  locked : Bool
  configBump : Nat
  lpBump : Nat
  authBump : Nat
  deriving DecidableEq, Repr

/-- `Config::set_fee` (state.rs lines 64-67). -/
def Config.setFee (c : Config) (fee : Nat) : Config :=
  { c with fee := fee }

/-- The `pinocchio_system::ID` pubkey (the all-zero system program id),
written by `Initialize::process` when no authority is supplied and treated
as the "immutable" marker by `UpdateConfig`. -/
def systemProgramId : Nat := 0

/-- `Initialize::process` (initialize.rs lines 196-217): `set_inner` on the
freshly created config account. -/
def initializeProcess (d : InitializeInstructionData)
    (mintX mintY configBump lpBump authBump : Nat) : Config :=
  { seed := d.seed
    authority := d.authority.getD systemProgramId
    mintX := mintX
    mintY := mintY
    fee := d.fee
    locked := false
    configBump := configBump
    lpBump := lpBump
    authBump := authBump }

/-- `UpdateConfigFeeInstructionData` (update_config.rs). -/
structure UpdateConfigFeeInstructionData where
  fee : Nat
  deriving DecidableEq, Repr

/-- `UpdateConfigFeeInstructionData::try_from` (update_config.rs lines
63-74): exactly 2 bytes, decoded little-endian, with no range check. -/
def updateConfigFeeTryFrom (data : List Nat) :
    Except ProgErr UpdateConfigFeeInstructionData :=
  if data.length ≠ 2 then .error .invalidInstructionData
  else .ok ⟨leBytes data⟩

/-- `UpdateConfig::process_update_fee` (update_config.rs lines 144-155):
writes the decoded fee into the config. -/
def processUpdateFee (c : Config) (d : UpdateConfigFeeInstructionData) : Config :=
  c.setFee d.fee

/-! ### Instruction discriminators

The `DISCRIMINATOR` constants declared by each instruction type. -/

/-- `Initialize::DISCRIMINATOR` (initialize.rs line 194). -/
def initializeDiscriminator : Nat := 0

/-- `Deposit::DISCRIMINATOR` (deposit.rs line 191). -/
def depositDiscriminator : Nat := 1

/-- `Withdraw::DISCRIMINATOR` (withdraw.rs line 189). -/
def withdrawDiscriminator : Nat := 2

/-- `Swap::DISCRIMINATOR` (swap.rs line 212). -/
def swapDiscriminator : Nat := 3

/-- `Loan::DISCRIMINATOR` (loan.rs line 132). -/
def loanDiscriminator : Nat := 0

/-- `Repay::DISCRIMINATOR` (repay.rs line 75). -/
def repayDiscriminator : Nat := 1

/-! ### Checked u64 arithmetic -/

/-- `u64::checked_mul`. -/
def checkedMul64 (a b : Nat) : Option Nat :=
  if a * b < 2 ^ 64 then some (a * b) else none

/-- `u64::checked_div` (and `u128::checked_div`): fails only on a zero
divisor. -/
def checkedDiv (a b : Nat) : Option Nat :=
  if b = 0 then none else some (a / b)

/-- `u64::checked_add`. -/
def checkedAdd64 (a b : Nat) : Option Nat :=
  if a + b < 2 ^ 64 then some (a + b) else none

/-! ### Loan -/

/-- Modelled from the spec: `MAX_LOAN_PAIRS = 10` (§3 of the spec; the
constant lives in the missing crate root lib.rs and is used by repay.rs). -/
def maxLoanPairs : Nat := 10

/-- An account as seen by an instruction's account list: its pubkey and the
current length of its data buffer. -/
structure AccountView where
  key : Nat
  dataLen : Nat
  deriving DecidableEq, Repr

/-- The duplicate-protocol-account scan of `LoanAccounts::try_from`
(loan.rs lines 53-62): for every pair index `i` except the last, compare
the key at even position `2*i` with every key at a later even position. -/
def hasDuplicateProtocolKey (tokenAccounts : List AccountView) : Bool :=
  let numPairs := tokenAccounts.length / 2
  (List.range (numPairs - 1)).any fun i =>
    (List.range numPairs).any fun j =>
      decide (i < j) &&
        ((tokenAccounts.get? (i * 2)).map AccountView.key
          == (tokenAccounts.get? (j * 2)).map AccountView.key)

/-- `LoanAccounts` (loan.rs lines 27-33). -/
structure LoanAccounts where
  borrower : AccountView
  protocol : AccountView
  loan : AccountView
  instructionSysvar : AccountView
  tokenAccounts : List AccountView
  deriving DecidableEq, Repr

/-- `LoanAccounts::try_from` (loan.rs lines 38-71): six fixed accounts,
then the token-account tail which must be even-length and non-empty, the
loan account must have empty data, and no protocol token account may be
duplicated.  There is no upper bound on the number of pairs. -/
def loanAccountsTryFrom (accounts : List AccountView) :
    Except ProgErr LoanAccounts :=
  match accounts with
  | borrower :: protocol :: loan :: instructionSysvar ::
      _tokenProgram :: _systemProgram :: tokenAccounts =>
    if tokenAccounts.length % 2 ≠ 0 ∨ tokenAccounts.length = 0 then
      .error .invalidAccountData
    else if loan.dataLen ≠ 0 then .error .invalidAccountData
    else if hasDuplicateProtocolKey tokenAccounts then .error .invalidAccountData
    else .ok ⟨borrower, protocol, loan, instructionSysvar, tokenAccounts⟩
  | _ => .error .notEnoughAccountKeys

/-- The per-pair bookkeeping of `Loan::process` (loan.rs lines 170-176):
`balance.checked_add(amount.checked_mul(fee).checked_div(10_000))`, all in
`u64`; `none` is the path that returns `InvalidInstructionData`. -/
def loanBalanceWithFee (fee balance amount : Nat) : Option Nat :=
  (checkedMul64 amount fee).bind fun p =>
    (checkedDiv p 10000).bind fun q => checkedAdd64 balance q

/-- The fee term of `loanBalanceWithFee` on its own, i.e. the increment the
Loan instruction records on top of the borrower's pre-loan balance. -/
def loanFeeIncrement (fee amount : Nat) : Option Nat :=
  (checkedMul64 amount fee).bind fun p => checkedDiv p 10000

/-! ### Transaction introspection -/

/-- One instruction of the enclosing transaction, as read back through the
instructions sysvar: the leading `u16` account count of its serialized
form, its account-meta keys in order, its program id, and its raw
instruction data bytes. -/
structure IntrospectedInstruction where
  numAccounts : Nat
  accountKeys : List Nat
  programId : Nat
  data : List Nat
  deriving DecidableEq, Repr

/-- The introspection tail of `Loan::process` (loan.rs lines 193-209):
read the instruction count from the sysvar, load the instruction at index
`count - 1` (the last one), and require that it targets this program
(`progId`), that its first data byte is `Repay::DISCRIMINATOR`, and that
its account meta at index 1 is the loan account's key.  The two unchecked
reads (first data byte, account meta 1) are modelled as failing when the
instruction has no data byte or fewer than two accounts. -/
def loanIntrospection (txn : List IntrospectedInstruction)
    (progId loanKey : Nat) : Except ProgErr Unit :=
  match txn.get? (txn.length - 1) with
  | none => .error .invalidArgument
  | some ix =>
    if ix.programId ≠ progId then .error .invalidInstructionData
    else
      match ix.data.head? with
      | none => .error .sliceOutOfRange
      | some firstByte =>
        if firstByte ≠ repayDiscriminator then .error .invalidInstructionData
        else
          match ix.accountKeys.get? 1 with
          | none => .error .sliceOutOfRange
          | some keyAt1 =>
            if keyAt1 ≠ loanKey then .error .invalidInstructionData
            else .ok ()

/-! ### Repay -/

/-- The fee computed by `Repay::process` (repay.rs lines 107-110):
`(amount as u128).checked_mul(FEE).checked_div(10_000)` followed by an
`as u64` truncation.  `FEE` is the program-wide constant from the missing
crate root, kept as a parameter. -/
def repayFeeAmount (FEE amount : Nat) : Option Nat :=
  if amount * FEE < 2 ^ 128 then some (amount * FEE / 10000 % 2 ^ 64) else none

/-- The amount transferred per pair by `Repay::process` (repay.rs line
116): the plain `amount + fee`, an unchecked `u64` addition that wraps
modulo `2 ^ 64` on overflow. -/
def repayTransferAmount (FEE amount : Nat) : Option Nat :=
  (repayFeeAmount FEE amount).map fun fee => (amount + fee) % 2 ^ 64

/-- A token transfer issued through the token program. -/
structure TransferEffect where
  source : Nat
  destination : Nat
  amount : Nat
  deriving DecidableEq, Repr

/-- The amounts `Repay::process` recovers from the introspected
instruction's raw data (repay.rs lines 91-96): `data.len() / 8` values of
eight bytes each, read from the start of the data. -/
def instructionAmounts (data : List Nat) : List Nat :=
  (List.range (data.length / 8)).map fun i => leBytes ((data.drop (8 * i)).take 8)

/-- One iteration of the repay loop (repay.rs lines 98-117) at pair index
`i`: compare the supplied pair of token-account keys with the introspected
account metas at indices `4 + 2*i` and `5 + 2*i` (unchecked reads, modelled
as failing when absent), compute the fee from the program-wide `FEE`, and
issue the transfer of `amount + fee` from borrower to protocol. -/
def repayPairTransfer (FEE : Nat) (ix0 : IntrospectedInstruction) (i : Nat)
    (pair : Nat × Nat) (amount : Nat) : Except ProgErr TransferEffect :=
  match ix0.accountKeys.get? (4 + i * 2), ix0.accountKeys.get? (5 + i * 2) with
  | some protocolKey, some borrowerKey =>
    if pair.1 ≠ protocolKey ∨ pair.2 ≠ borrowerKey then .error .invalidAccountData
    else
      match repayTransferAmount FEE amount with
      | none => .error .invalidAccountData
      | some t => .ok ⟨pair.2, pair.1, t⟩
  | _, _ => .error .sliceOutOfRange

/-- Short-circuiting map over `Except`, the shape of the `?`-propagating
repay loop. -/
def mapExcept {α β : Type} (f : α → Except ProgErr β) :
    List α → Except ProgErr (List β)
  | [] => .ok []
  | a :: as =>
    match f a with
    | .error e => .error e
    | .ok b =>
      match mapExcept f as with
      | .error e => .error e
      | .ok bs => .ok (b :: bs)

/-- `Repay::process` (repay.rs lines 77-121).  `pairs` is the
`(protocol, borrower)` key list built by `RepayAccounts::try_from` from the
trailing token accounts; `txn` is the instructions sysvar.  The processor
loads the instruction at index 0, requires it to target `progId`, checks
`pairs.len() * 2 == numAccounts - 4` (the `usize` subtraction wraps),
recovers the amounts from that instruction's raw data, and transfers
`amount + fee` per pair — without ever reading a loan record or any
borrower balance. -/
def repayProcess (FEE progId : Nat) (pairs : List (Nat × Nat))
    (txn : List IntrospectedInstruction) : Except ProgErr (List TransferEffect) :=
  match txn.get? 0 with
  | none => .error .invalidArgument
  | some ix0 =>
    if ix0.programId ≠ progId then .error .invalidInstructionData
    else if pairs.length * 2 ≠ (ix0.numAccounts + 2 ^ 64 - 4) % 2 ^ 64 then
      .error .invalidAccountData
    else
      let amounts := instructionAmounts ix0.data
      let zipped := pairs.zip amounts
      mapExcept (fun x => repayPairTransfer FEE ix0 x.1 x.2.1 x.2.2)
        ((List.range zipped.length).zip zipped)

/-! ### Deposit amount resolution -/

/-- Modelled from the spec: `ConstantProduct::xy_deposit_amounts_from_l`
of the external `constant_product_curve` crate (deposit.rs lines 163-169).
Per §4.2 of the spec the non-bootstrap deposit amounts are the reserves
scaled by `requested_liquidity / liquidity_supply`, rounded up so the pool
never under-collects, failing on any intermediate overflow (which covers
the division by a zero liquidity supply). -/
def xyDepositAmountsFromL (x y l amount _precision : Nat) :
    Except ProgErr (Nat × Nat) :=
  if l = 0 then .error .invalidArgument
  else
    let depositX := (x * amount + (l - 1)) / l
    let depositY := (y * amount + (l - 1)) / l
    if depositX < 2 ^ 64 ∧ depositY < 2 ^ 64 then .ok (depositX, depositY)
    else .error .invalidArgument

/-- The `(x, y)` resolution and slippage check of `Deposit::try_from`
(deposit.rs lines 160-178): the caller-supplied maxima are taken verbatim
exactly when the LP supply **and both vault balances** are zero; otherwise
the curve is consulted; then `x <= max_x && y <= max_y` is enforced. -/
def depositResolveAmounts (lpSupply vaultX vaultY : Nat)
    (d : DepositInstructionData) : Except ProgErr (Nat × Nat) :=
  match
    (if lpSupply = 0 ∧ vaultX = 0 ∧ vaultY = 0 then
      Except.ok (d.maxX, d.maxY)
    else
      xyDepositAmountsFromL vaultX vaultY lpSupply d.amount 6) with
  | .error e => .error e
  | .ok (x, y) =>
    if ¬(x ≤ d.maxX ∧ y ≤ d.maxY) then .error .invalidArgument
    else .ok (x, y)

/-- A token-program side effect issued by `Deposit::process`. -/
inductive TokenOp where
  | transfer (source destination amount : Nat)
  | mintTo (amount : Nat)
  deriving DecidableEq, Repr

/-- `Deposit::process` (deposit.rs lines 193-223): transfer the resolved
`x` from the user's X account to vault X, the resolved `y` likewise, then
mint the requested `amount` of liquidity units to the user. -/
def depositProcessEffects (userX vaultX userY vaultY : Nat)
    (amounts : Nat × Nat) (lpAmount : Nat) : List TokenOp :=
  [.transfer userX vaultX amounts.1,
   .transfer userY vaultY amounts.2,
   .mintTo lpAmount]

/-! ## Theorems -/

/-- C9: the discriminator constants collide — `Loan::DISCRIMINATOR` equals
`Initialize::DISCRIMINATOR` (both 0) and `Repay::DISCRIMINATOR` equals
`Deposit::DISCRIMINATOR` (both 1), so any dispatcher keyed on these
constants maps a Loan payload and an Initialize payload (resp. a Repay and
a Deposit payload) to the same route. -/
theorem c9_discriminator_collisions :
    loanDiscriminator = initializeDiscriminator ∧ loanDiscriminator = 0 ∧
    repayDiscriminator = depositDiscriminator ∧ repayDiscriminator = 1 ∧
    ∀ dispatch : Nat → Option Nat,
      dispatch loanDiscriminator = dispatch initializeDiscriminator ∧
      dispatch repayDiscriminator = dispatch depositDiscriminator :=
  ⟨rfl, rfl, rfl, rfl, fun _ => ⟨rfl, rfl⟩⟩

/-- Witness for C9 at a concrete dispatcher. -/
theorem c9_discriminator_collisions_witness :
    (fun n => some (n + 1)) loanDiscriminator =
      (fun n => some (n + 1)) initializeDiscriminator :=
  (c9_discriminator_collisions.2.2.2.2 (fun n => some (n + 1))).1

/-- C1: `Repay::process` does not compare any borrower balance against a
recorded `expected_balance`; on a concrete repay whose checks all pass it
unconditionally issues a transfer of `amount + floor(amount * FEE / 10000)`
(here `FEE = 500`, amount `500`, so `525`) from the borrower token account
to the protocol token account.  Borrower balances are not even an input of
the processor, so the transfer is the same when the borrower has already
restored the expected balance. -/
theorem c1_repay_transfers_unconditionally :
    repayProcess 500 77 [(11, 22)]
        [⟨6, [1, 2, 3, 4, 11, 22], 77, [244, 1, 0, 0, 0, 0, 0, 0]⟩] =
      .ok [⟨22, 11, 525⟩] ∧ (525 : Nat) ≠ 0 :=
  ⟨rfl, by decide⟩

/-- C8 counterexample: at `amount = 0` the repay-side transfer amount and
the loan-side recorded fee increment coincide (both zero) although the
program-wide `FEE` (500) differs from the loan's fee parameter (30), so
"whenever FEE differs from the loan's fee parameter the amounts differ" is
false as stated. -/
theorem c8_counterexample :
    (500 : Nat) ≠ 30 ∧ repayTransferAmount 500 0 = some 0 ∧
    loanFeeIncrement 30 0 = some 0 :=
  ⟨by decide, rfl, rfl⟩

/-- C8 (amended): the repay fee is `floor(amount * FEE / 10000)` computed
from the program-wide constant `FEE` — the loan's fee parameter is not an
input — and, absent overflow, the repay transfer `amount + floor(amount *
FEE / 10000)` differs from `amount` plus Loan's recorded increment
`floor(amount * fee / 10000)` exactly when the two fee floors differ. -/
theorem c8_repay_fee_from_global_constant (FEE fee amount : Nat)
    (h1 : amount * FEE < 2 ^ 128) (h2 : amount * FEE / 10000 < 2 ^ 64)
    (h3 : amount + amount * FEE / 10000 < 2 ^ 64) (h4 : amount * fee < 2 ^ 64) :
    repayTransferAmount FEE amount = some (amount + amount * FEE / 10000) ∧
    loanFeeIncrement fee amount = some (amount * fee / 10000) ∧
    (amount + amount * FEE / 10000 ≠ amount + amount * fee / 10000 ↔
      amount * FEE / 10000 ≠ amount * fee / 10000) := by
  refine ⟨?_, ?_, ?_⟩
  · unfold repayTransferAmount repayFeeAmount
    simp only [h1, if_pos, Option.map_some']
    rw [Nat.mod_eq_of_lt h2, Nat.mod_eq_of_lt h3]
  · unfold loanFeeIncrement checkedMul64 checkedDiv
    rw [if_pos h4]
    simp
  · constructor
    · intro h hc
      exact h (by rw [hc])
    · intro h hc
      exact h (Nat.add_left_cancel hc)

/-- Witness for C8 (amended) at `FEE = 500`, `fee = 30`, `amount = 500`. -/
theorem c8_repay_fee_from_global_constant_witness :
    repayTransferAmount 500 500 = some (500 + 500 * 500 / 10000) ∧
    loanFeeIncrement 30 500 = some (500 * 30 / 10000) ∧
    (500 + 500 * 500 / 10000 ≠ 500 + 500 * 30 / 10000 ↔
      500 * 500 / 10000 ≠ 500 * 30 / 10000) :=
  c8_repay_fee_from_global_constant 500 30 500 (by decide) (by decide)
    (by decide) (by decide)

/-- C4 counterexample: with zero liquidity supply but a non-empty X vault
(5 tokens donated), the deposit does not take the caller's maxima
verbatim: the curve branch is taken and the instruction fails, so the
resolved amounts are not `(max_x, max_y) = (10, 10)`. -/
theorem c4_counterexample :
    depositResolveAmounts 0 5 0 ⟨100, 10, 10, 0⟩ = .error .invalidArgument ∧
    depositResolveAmounts 0 5 0 ⟨100, 10, 10, 0⟩ ≠ .ok (10, 10) :=
  ⟨rfl, fun h => Except.noConfusion h⟩

/-- C4 (amended): when the liquidity supply **and both vault balances**
are zero, the resolved token amounts are exactly the caller-supplied
`(max_x, max_y)` taken verbatim, and `Deposit::process` then transfers
them and mints the requested liquidity units to the user. -/
theorem c4_first_deposit_verbatim (d : DepositInstructionData)
    (userX vaultXKey userY vaultYKey : Nat) :
    depositResolveAmounts 0 0 0 d = .ok (d.maxX, d.maxY) ∧
    depositProcessEffects userX vaultXKey userY vaultYKey (d.maxX, d.maxY)
        d.amount =
      [.transfer userX vaultXKey d.maxX, .transfer userY vaultYKey d.maxY,
        .mintTo d.amount] := by
  constructor
  · unfold depositResolveAmounts
    simp
  · rfl

/-- Witness for C4 (amended) at a concrete first deposit. -/
theorem c4_first_deposit_verbatim_witness :
    depositResolveAmounts 0 0 0 ⟨100, 7, 9, 0⟩ = .ok (7, 9) ∧
    depositProcessEffects 1 2 3 4 (7, 9) 100 =
      [.transfer 1 2 7, .transfer 3 4 9, .mintTo 100] :=
  c4_first_deposit_verbatim ⟨100, 7, 9, 0⟩ 1 2 3 4

/-- C7: the Swap payload decoder is broken — its length check demands
exactly 2 bytes (`size_of::<u16>()`) instead of the 25-byte layout, after
which it indexes bytes `1..9`, so decoding never succeeds for any payload:
every 25-byte payload is rejected with `InvalidInstructionData`, and a
2-byte payload panics on the out-of-range slice. -/
theorem c7_swap_decode_never_succeeds :
    (∀ data now r, swapInstructionDataTryFrom data now ≠ .ok r) ∧
    (∀ data now, data.length = 25 →
      swapInstructionDataTryFrom data now = .error .invalidInstructionData) ∧
    swapInstructionDataTryFrom [0, 0] 0 = .error .sliceOutOfRange := by
  refine ⟨?_, ?_, rfl⟩
  · intro data now r h
    unfold swapInstructionDataTryFrom at h
    by_cases hl : data.length = 2
    · have hs : sliceBytes data 1 9 = none := by
        unfold sliceBytes
        rw [hl]
        norm_num
      rw [if_neg (by simp [hl]), hs] at h
      exact Except.noConfusion h
    · rw [if_pos hl] at h
      exact Except.noConfusion h
  · intro data now hl
    unfold swapInstructionDataTryFrom
    rw [if_pos (by omega)]

/-- Witness for C7 at a concrete well-formed 25-byte payload. -/
theorem c7_swap_decode_never_succeeds_witness :
    (List.replicate 25 (0 : Nat)).length = 25 ∧
    swapInstructionDataTryFrom (List.replicate 25 (0 : Nat)) 0 =
      .error .invalidInstructionData :=
  ⟨by decide, c7_swap_decode_never_succeeds.2.1 (List.replicate 25 0) 0 (by decide)⟩

/-- C6: `Initialize` rejects any fee of 10000 or more at decode time (so
freshly initialized configs satisfy `fee < 10000`), but the
`UpdateConfig` fee path performs no such check: the 2-byte payload
`[0x10, 0x27]` decodes to `fee = 10000` and `process_update_fee` writes it
into the config, breaking the `fee < 10000` invariant. -/
theorem c6_fee_invariant_broken_by_update :
    (∀ data r, initializeInstructionDataTryFrom data = .ok r → r.fee < 10000) ∧
    (∀ data r mintX mintY cb lb ab,
      initializeInstructionDataTryFrom data = .ok r →
      (initializeProcess r mintX mintY cb lb ab).fee < 10000) ∧
    updateConfigFeeTryFrom [16, 39] = .ok ⟨10000⟩ ∧
    (∀ c, (processUpdateFee c ⟨10000⟩).fee = 10000) ∧
    ¬(10000 : Nat) < 10000 := by
  have hinit : ∀ data r, initializeInstructionDataTryFrom data = .ok r →
      r.fee < 10000 := by
    intro data r h
    unfold initializeInstructionDataTryFrom at h
    by_cases h10 : data.length = 10
    · rw [if_pos h10] at h
      by_cases hfee : 10000 ≤ leBytes ((data.drop 8).take 2)
      · rw [if_pos hfee] at h
        exact Except.noConfusion h
      · rw [if_neg hfee] at h
        cases h
        exact Nat.lt_of_not_le hfee
    · rw [if_neg h10] at h
      by_cases h42 : data.length = 42
      · rw [if_pos h42] at h
        by_cases hfee : 10000 ≤ leBytes ((data.drop 8).take 2)
        · rw [if_pos hfee] at h
          exact Except.noConfusion h
        · rw [if_neg hfee] at h
          cases h
          exact Nat.lt_of_not_le hfee
      · rw [if_neg h42] at h
        exact Except.noConfusion h
  exact ⟨hinit, fun data r _ _ _ _ _ h => hinit data r h, rfl, fun _ => rfl,
    by decide⟩

/-- Witness for C6 at a concrete 10-byte Initialize payload with fee 30. -/
theorem c6_fee_invariant_broken_by_update_witness :
    initializeInstructionDataTryFrom [0, 0, 0, 0, 0, 0, 0, 0, 30, 0] =
      .ok ⟨0, 30, none⟩ ∧
    (⟨0, 30, none⟩ : InitializeInstructionData).fee < 10000 :=
  ⟨rfl, c6_fee_invariant_broken_by_update.1 [0, 0, 0, 0, 0, 0, 0, 0, 30, 0]
    ⟨0, 30, none⟩ rfl⟩

/-- C3: the Loan-side bookkeeping is fully checked — it only succeeds when
`amount * fee` fits in a `u64` and the final balance-plus-fee sum fits in a
`u64` — but the Repay-side `amount + fee` (repay.rs line 116) is an
unchecked `u64` addition: at the recovered amount `2^64 - 1` with
`FEE = 500` the mathematical sum exceeds `2^64 - 1`, yet the computation
succeeds with the value wrapped modulo `2^64` instead of failing. -/
theorem c3_repay_addition_wraps :
    (∀ fee balance amount r, loanBalanceWithFee fee balance amount = some r →
      amount * fee < 2 ^ 64 ∧ r = balance + amount * fee / 10000 ∧ r < 2 ^ 64) ∧
    repayTransferAmount 500 (2 ^ 64 - 1) = some 922337203685477579 ∧
    2 ^ 64 ≤ (2 ^ 64 - 1) + (2 ^ 64 - 1) * 500 / 10000 % 2 ^ 64 ∧
    (922337203685477579 : Nat) ≠ (2 ^ 64 - 1) + (2 ^ 64 - 1) * 500 / 10000 := by
  refine ⟨?_, rfl, by norm_num, by norm_num⟩
  intro fee balance amount r h
  unfold loanBalanceWithFee checkedMul64 checkedDiv checkedAdd64 at h
  by_cases h1 : amount * fee < 2 ^ 64
  · rw [if_pos h1] at h
    simp only [Option.some_bind] at h
    rw [if_neg (by norm_num : ¬(10000 = 0))] at h
    simp only [Option.some_bind] at h
    by_cases h2 : balance + amount * fee / 10000 < 2 ^ 64
    · rw [if_pos h2] at h
      cases h
      exact ⟨h1, rfl, h2⟩
    · rw [if_neg h2] at h
      exact Option.noConfusion h
  · rw [if_neg h1] at h
    exact Option.noConfusion h

/-- Witness for C3's checked Loan-side computation at fee 50, balance 1000,
amount 500. -/
theorem c3_repay_addition_wraps_witness :
    loanBalanceWithFee 50 1000 500 = some 1002 ∧
    (500 * 50 < 2 ^ 64 ∧ 1002 = 1000 + 500 * 50 / 10000 ∧ 1002 < 2 ^ 64) :=
  ⟨rfl, c3_repay_addition_wraps.1 50 1000 500 1002 rfl⟩

/-- C10: zero quantities are unrepresentable at the public interface — a
successful Deposit decode has nonzero `amount`, `max_x`, `max_y`, a
successful Withdraw decode has nonzero `amount`, `min_x`, `min_y`, a
successful Swap decode has nonzero `amount` and `min`, and any 32-byte
Deposit/Withdraw payload with a zero field is rejected with
`InvalidInstructionData` at decode time. -/
theorem c10_zero_quantities_unrepresentable :
    (∀ data now d, depositInstructionDataTryFrom data now = .ok d →
      d.amount ≠ 0 ∧ d.maxX ≠ 0 ∧ d.maxY ≠ 0) ∧
    (∀ data now d, withdrawInstructionDataTryFrom data now = .ok d →
      d.amount ≠ 0 ∧ d.minX ≠ 0 ∧ d.minY ≠ 0) ∧
    (∀ data now d, swapInstructionDataTryFrom data now = .ok d →
      d.amount ≠ 0 ∧ d.min ≠ 0) ∧
    (∀ data now, data.length = 32 →
      (leBytes ((data.drop 0).take 8) = 0 ∨ leBytes ((data.drop 8).take 8) = 0 ∨
        leBytes ((data.drop 16).take 8) = 0) →
      depositInstructionDataTryFrom data now = .error .invalidInstructionData ∧
      withdrawInstructionDataTryFrom data now = .error .invalidInstructionData) := by
  refine ⟨?_, ?_, ?_, ?_⟩
  · intro data now d h
    unfold depositInstructionDataTryFrom at h
    split at h
    · exact Except.noConfusion h
    split at h
    · exact Except.noConfusion h
    split at h
    · exact Except.noConfusion h
    split at h
    · exact Except.noConfusion h
    split at h
    · exact Except.noConfusion h
    cases h
    refine ⟨?_, ?_, ?_⟩ <;> assumption
  · intro data now d h
    unfold withdrawInstructionDataTryFrom at h
    split at h
    · exact Except.noConfusion h
    split at h
    · exact Except.noConfusion h
    split at h
    · exact Except.noConfusion h
    split at h
    · exact Except.noConfusion h
    split at h
    · exact Except.noConfusion h
    cases h
    refine ⟨?_, ?_, ?_⟩ <;> assumption
  · intro data now d h
    unfold swapInstructionDataTryFrom at h
    split at h
    · exact Except.noConfusion h
    split at h
    · exact Except.noConfusion h
    split at h
    · exact Except.noConfusion h
    split at h
    · exact Except.noConfusion h
    split at h
    · exact Except.noConfusion h
    split at h
    · exact Except.noConfusion h
    split at h
    · exact Except.noConfusion h
    split at h <;> first
      | exact Except.noConfusion h
      | (cases h; exact ⟨by assumption, by assumption⟩)
  · intro data now hlen hz
    have h32 : ¬data.length ≠ 32 := by omega
    constructor
    · unfold depositInstructionDataTryFrom
      rw [if_neg h32]
      rcases hz with hz | hz | hz
      · rw [if_pos hz]
      · by_cases h1 : leBytes ((data.drop 0).take 8) = 0
        · rw [if_pos h1]
        · rw [if_neg h1, if_pos hz]
      · by_cases h1 : leBytes ((data.drop 0).take 8) = 0
        · rw [if_pos h1]
        · by_cases h2 : leBytes ((data.drop 8).take 8) = 0
          · rw [if_neg h1, if_pos h2]
          · rw [if_neg h1, if_neg h2, if_pos hz]
    · unfold withdrawInstructionDataTryFrom
      rw [if_neg h32]
      rcases hz with hz | hz | hz
      · rw [if_pos hz]
      · by_cases h1 : leBytes ((data.drop 0).take 8) = 0
        · rw [if_pos h1]
        · rw [if_neg h1, if_pos hz]
      · by_cases h1 : leBytes ((data.drop 0).take 8) = 0
        · rw [if_pos h1]
        · by_cases h2 : leBytes ((data.drop 8).take 8) = 0
          · rw [if_neg h1, if_pos h2]
          · rw [if_neg h1, if_neg h2, if_pos hz]

/-- Witness for C10 at a concrete 32-byte Deposit payload with all three
quantities equal to 1. -/
theorem c10_zero_quantities_unrepresentable_witness :
    depositInstructionDataTryFrom
        ([1, 0, 0, 0, 0, 0, 0, 0] ++ [1, 0, 0, 0, 0, 0, 0, 0] ++
          [1, 0, 0, 0, 0, 0, 0, 0] ++ [0, 0, 0, 0, 0, 0, 0, 0]) 0 =
      .ok ⟨1, 1, 1, 0⟩ ∧
    ((1 : Nat) ≠ 0 ∧ (1 : Nat) ≠ 0 ∧ (1 : Nat) ≠ 0) :=
  ⟨rfl, by
    have h := c10_zero_quantities_unrepresentable.1
      ([1, 0, 0, 0, 0, 0, 0, 0] ++ [1, 0, 0, 0, 0, 0, 0, 0] ++
        [1, 0, 0, 0, 0, 0, 0, 0] ++ [0, 0, 0, 0, 0, 0, 0, 0]) 0 ⟨1, 1, 1, 0⟩
      (by rfl)
    exact h⟩

/-- C5: `LoanAccounts::try_from` does enforce even length, non-emptiness
and pairwise-distinct protocol accounts, but it has **no**
`MAX_LOAN_PAIRS` bound: a Loan account list with 11 pairs (22 token
accounts with distinct protocol keys) — one more than `MAX_LOAN_PAIRS =
10` — is accepted at decode time. -/
theorem c5_loan_pair_bound_missing :
    (∀ accounts la, loanAccountsTryFrom accounts = .ok la →
      la.tokenAccounts.length % 2 = 0 ∧ la.tokenAccounts.length ≠ 0 ∧
      hasDuplicateProtocolKey la.tokenAccounts = false) ∧
    loanAccountsTryFrom
        ([⟨1, 0⟩, ⟨2, 0⟩, ⟨3, 0⟩, ⟨4, 0⟩, ⟨5, 0⟩, ⟨6, 0⟩] ++
          (List.range 22).map (fun i => ⟨100 + i, 0⟩)) =
      .ok ⟨⟨1, 0⟩, ⟨2, 0⟩, ⟨3, 0⟩, ⟨4, 0⟩,
        (List.range 22).map (fun i => ⟨100 + i, 0⟩)⟩ ∧
    ((List.range 22).map (fun i => (⟨100 + i, 0⟩ : AccountView))).length / 2 =
      11 ∧
    maxLoanPairs < 11 := by
  refine ⟨?_, by rfl, by rfl, by decide⟩
  intro accounts la h
  unfold loanAccountsTryFrom at h
  split at h
  · split at h
    · exact Except.noConfusion h
    split at h
    · exact Except.noConfusion h
    split at h
    · exact Except.noConfusion h
    cases h
    rename_i hEven _ hDup
    push_neg at hEven
    exact ⟨hEven.1, hEven.2, Bool.of_not_eq_true hDup⟩
  · exact Except.noConfusion h

/-- Witness for C5's decode-time checks at a minimal valid Loan account
list with one token-account pair. -/
theorem c5_loan_pair_bound_missing_witness :
    loanAccountsTryFrom
        [⟨1, 0⟩, ⟨2, 0⟩, ⟨3, 0⟩, ⟨4, 0⟩, ⟨5, 0⟩, ⟨6, 0⟩, ⟨7, 0⟩, ⟨8, 0⟩] =
      .ok ⟨⟨1, 0⟩, ⟨2, 0⟩, ⟨3, 0⟩, ⟨4, 0⟩, [⟨7, 0⟩, ⟨8, 0⟩]⟩ ∧
    ([(⟨7, 0⟩ : AccountView), ⟨8, 0⟩].length % 2 = 0 ∧
      [(⟨7, 0⟩ : AccountView), ⟨8, 0⟩].length ≠ 0 ∧
      hasDuplicateProtocolKey [⟨7, 0⟩, ⟨8, 0⟩] = false) :=
  ⟨by rfl, c5_loan_pair_bound_missing.1
    [⟨1, 0⟩, ⟨2, 0⟩, ⟨3, 0⟩, ⟨4, 0⟩, ⟨5, 0⟩, ⟨6, 0⟩, ⟨7, 0⟩, ⟨8, 0⟩]
    ⟨⟨1, 0⟩, ⟨2, 0⟩, ⟨3, 0⟩, ⟨4, 0⟩, [⟨7, 0⟩, ⟨8, 0⟩]⟩ (by rfl)⟩

/-- C2: the introspection tail of `Loan::process` completes only when the
transaction's last instruction targets this program, carries the Repay
discriminator as its first data byte, and references the loan (escrow)
account at account-meta index 1.  Since the Loan instruction itself begins
with the Loan discriminator (0 ≠ 1), a passing check exhibits a strictly
later matching instruction; and when no instruction of the transaction
matches, the check fails with an error. -/
theorem c2_loan_asserts_later_repay
    (txn : List IntrospectedInstruction) (progId loanKey i : Nat)
    (loanIx : IntrospectedInstruction)
    (hGet : txn.get? i = some loanIx)
    (hDisc : loanIx.data.head? = some loanDiscriminator) :
    (loanIntrospection txn progId loanKey = .ok () →
      ∃ j repayIx, i < j ∧ txn.get? j = some repayIx ∧
        repayIx.programId = progId ∧
        repayIx.data.head? = some repayDiscriminator ∧
        repayIx.accountKeys.get? 1 = some loanKey) ∧
    ((∀ j repayIx, txn.get? j = some repayIx →
        ¬(repayIx.programId = progId ∧
          repayIx.data.head? = some repayDiscriminator ∧
          repayIx.accountKeys.get? 1 = some loanKey)) →
      loanIntrospection txn progId loanKey ≠ .ok ()) := by
  have hi : i < txn.length := by
    by_contra hc
    push_neg at hc
    rw [List.get?_eq_none.mpr hc] at hGet
    exact Option.noConfusion hGet
  have main : loanIntrospection txn progId loanKey = .ok () →
      ∃ j repayIx, i < j ∧ txn.get? j = some repayIx ∧
        repayIx.programId = progId ∧
        repayIx.data.head? = some repayDiscriminator ∧
        repayIx.accountKeys.get? 1 = some loanKey := by
    intro hOk
    unfold loanIntrospection at hOk
    split at hOk
    · exact Except.noConfusion hOk
    rename_i ix hLast
    split at hOk
    · exact Except.noConfusion hOk
    rename_i hProg
    split at hOk
    · exact Except.noConfusion hOk
    rename_i firstByte hHead
    split at hOk
    · exact Except.noConfusion hOk
    rename_i hByte
    split at hOk
    · exact Except.noConfusion hOk
    rename_i keyAt1 hKey1
    split at hOk
    · exact Except.noConfusion hOk
    rename_i hKey
    push_neg at hProg hByte hKey
    refine ⟨txn.length - 1, ix, ?_, hLast, hProg, ?_, ?_⟩
    · rcases Nat.lt_or_ge i (txn.length - 1) with hlt | hge
      · exact hlt
      · exfalso
        have hEq : i = txn.length - 1 :=
          le_antisymm (Nat.le_pred_of_lt hi) hge
        rw [hEq, hLast] at hGet
        injection hGet with hIxEq
        rw [← hIxEq] at hDisc
        rw [hByte] at hHead
        rw [hDisc] at hHead
        injection hHead with hBad
        exact absurd hBad (by decide)
    · rw [hHead, hByte]
    · rw [hKey1, hKey]
  refine ⟨main, fun hAbsent hOk => ?_⟩
  obtain ⟨j, repayIx, _, hjGet, h1, h2, h3⟩ := main hOk
  exact hAbsent j repayIx hjGet ⟨h1, h2, h3⟩

/-- Witness for C2 on a concrete two-instruction transaction: a Loan at
index 0 followed by a matching Repay-shaped last instruction. -/
theorem c2_loan_asserts_later_repay_witness :
    ∃ j repayIx, 0 < j ∧
      ([⟨6, [1, 2, 3, 4, 11, 22], 77, [0, 7]⟩,
        ⟨2, [7, 55], 77, [1]⟩] : List IntrospectedInstruction).get? j =
        some repayIx ∧
      repayIx.programId = 77 ∧
      repayIx.data.head? = some repayDiscriminator ∧
      repayIx.accountKeys.get? 1 = some 55 :=
  (c2_loan_asserts_later_repay
    [⟨6, [1, 2, 3, 4, 11, 22], 77, [0, 7]⟩, ⟨2, [7, 55], 77, [1]⟩]
    77 55 0 ⟨6, [1, 2, 3, 4, 11, 22], 77, [0, 7]⟩ (by rfl) (by rfl)).1 (by rfl)

end NativeFlashLoan
